import Mathlib

/-!
Verification of `epic_report_generator`: shallow embedding of
`core/data_models.py`, `core/metrics.py`, the branching structure of
`core/chart_generator.py` and the "N/A" cell logic of
`core/pdf_generator.py:_build_summary_box`.

Modelling conventions:
* Python `float` values (story points, progress, velocity, …) are `ℚ`.
* A `datetime` is an integer number of seconds (`ℤ`); a `date` is an
  integer day ordinal (`ℤ`); `dtToDate` is `datetime.date()`, i.e. floor
  division by 86400 seconds.  Timezone adjustment (`astimezone`) is the
  identity in this model.
* `datetime.now()` / `date.today()` are passed in as an explicit `now : ℤ`
  parameter (seconds); `date.today()` is `dtToDate now`.
* `timedelta(weeks=w).days` for a fractional `w` is `⌊7 * w⌋` (Python
  normalises a timedelta to whole days plus a nonnegative sub-day part,
  and `date + timedelta` uses only the `days` attribute).
-/

namespace EpicReport

/-- Seconds in a day. -/
def secondsPerDay : ℤ := 86400

/-- Seconds in 7 days (`timedelta(days=7)`). -/
def sevenDays : ℤ := 7 * 86400

/-- Seconds in one week (used by `timedelta(weeks=…)`). -/
def secondsPerWeek : ℤ := 604800

/-- `datetime.date()`: floor-divide a seconds timestamp into a day ordinal. -/
def dtToDate (t : ℤ) : ℤ := Int.fdiv t secondsPerDay

/-- `data_models.JiraIssue`. -/
structure JiraIssue where
  key : String
  summary : String
  status : String
  status_category : String
  resolution : Option String
  issue_type : String
  story_points : Option ℚ
  created : Option ℤ
  resolved : Option ℤ
  assignee : Option String
deriving DecidableEq

/-- `data_models.EpicData`. -/
structure EpicData where
  key : String
  summary : String
  status : String
  priority : Option String
  assignee : Option String
  reporter : Option String
  created : Option ℤ
  updated : Option ℤ
  labels : List String := []
  fix_versions : List String := []
  children : List JiraIssue := []
deriving DecidableEq

/-- `data_models.EpicMetrics`, with the dataclass field defaults. -/
structure EpicMetrics where
  total_issues : ℕ := 0
  completed_issues : ℕ := 0
  open_issues : ℕ := 0
  unestimated_issues : ℕ := 0
  total_sp : ℚ := 0
  completed_sp : ℚ := 0
  remaining_sp : ℚ := 0
  progress : ℚ := 0
  avg_cycle_time_days : Option ℚ := none
  velocity_sp_per_week : Option ℚ := none
  scope_change_pct : Option ℚ := none
  blocked_issues : ℕ := 0
  forecast_date : Option ℤ := none
  dates : List ℤ := []
  total_sp_over_time : List ℚ := []
  completed_sp_over_time : List ℚ := []
  cumulative_issues : List ℕ := []
  cumulative_unestimated : List ℕ := []
deriving DecidableEq

/-- Python truthiness of an optional float (`if c.story_points`):
`None` and `0.0` are falsy. -/
def optTruthy (x : Option ℚ) : Bool :=
  match x with
  | none => false
  | some q => decide (q ≠ 0)

/-- `c.story_points or 0` (used in the time-series sums). -/
def spOrZero (c : JiraIssue) : ℚ := (c.story_points).getD 0

/-- Minimum of `a` and all elements of `l` (Python `min` over a nonempty
sequence, folded). -/
def foldMin (a : ℤ) (l : List ℤ) : ℤ := l.foldl min a

/-- `metrics._progress`. -/
def progressCalc (completed_sp total_sp : ℚ) (completed_issues total_issues : ℕ)
    : ℚ :=
  if total_issues = 0 then 0
  else if total_sp = 0 then
    max 0 (min 100 ((completed_issues : ℚ) / (total_issues : ℚ) * 100))
  else
    max 0 (min 100
      (completed_sp / total_sp * ((completed_issues : ℚ) / (total_issues : ℚ)) * 100))

/-- `metrics._avg_cycle_time`: mean of (resolved − created) in days over
children that are `"Done"` with both timestamps set; `None` if none. -/
def avgCycleTime (children : List JiraIssue) : Option ℚ :=
  let durations := children.filterMap (fun c =>
    match c.created, c.resolved with
    | some cr, some re =>
        if c.status_category = "Done" then
          some (((re - cr : ℤ) : ℚ) / (secondsPerDay : ℚ))
        else none
    | _, _ => none)
  if durations.isEmpty then none
  else some (durations.sum / (durations.length : ℚ))

/-- The filter of `metrics._velocity`'s generator: truthy story points,
`"Done"`, resolved, and resolved at or after the cutoff. -/
def velocityCounts (cutoff : ℤ) (c : JiraIssue) : Bool :=
  optTruthy c.story_points && decide (c.status_category = "Done") &&
    match c.resolved with
    | some r => decide (cutoff ≤ r)
    | none => false

/-- `metrics._velocity` with `weeks = 4`: the cutoff is
`datetime.now() - timedelta(weeks=4)`. -/
def velocityCalc (now : ℤ) (children : List JiraIssue) : Option ℚ :=
  let cutoff := now - 4 * secondsPerWeek
  let sp := ((children.filter (velocityCounts cutoff)).map spOrZero).sum
  if sp = 0 then none else some (sp / 4)

/-- `metrics._scope_change`.  The source sorts the dated `(child, created)`
pairs by `created` and reads `dated[0][1]`; that value is the minimum of
the created timestamps, embedded here as `foldMin`. -/
def scopeChange (children : List JiraIssue) : Option ℚ :=
  if children.length < 2 then none
  else
    let dated := children.filterMap (fun c => c.created)
    match dated with
    | [] => none
    | t :: rest =>
      if dated.length < 2 then none
      else
        let first_created := foldMin t rest
        let threshold := first_created + sevenDays
        let added_later := dated.countP (fun dt => decide (threshold < dt))
        some ((added_later : ℚ) / (children.length : ℚ) * 100)

/-- `metrics._forecast`: `date.today() + timedelta(weeks=remaining/velocity)`.
Adding a timedelta to a date uses only whole days, i.e. `⌊7 * w⌋` days. -/
def forecastCalc (today : ℤ) (remaining_sp : ℚ) (velocity : Option ℚ)
    : Option ℤ :=
  match velocity with
  | none => none
  | some v =>
    if v = 0 ∨ v ≤ 0 ∨ remaining_sp ≤ 0 then none
    else some (today + ⌊7 * (remaining_sp / v)⌋)

/-- The dated `(child, created)` pairs of `_build_time_series`. -/
def datedPairs (children : List JiraIssue) : List (JiraIssue × ℤ) :=
  children.filterMap (fun c => (c.created).map (fun t => (c, t)))

/-- `created_by_day` in `_build_time_series`: children created on or
before `day`. -/
def createdByDay (dated : List (JiraIssue × ℤ)) (day : ℤ)
    : List (JiraIssue × ℤ) :=
  dated.filter (fun p => decide (dtToDate p.2 ≤ day))

/-- The `done_by_day` filter: `"Done"` and resolved by the end of `day`
(`datetime(day, 23:59:59)`, i.e. `day * 86400 + 86399` seconds). -/
def doneOnDay (day : ℤ) (c : JiraIssue) : Bool :=
  decide (c.status_category = "Done") &&
    match c.resolved with
    | some r => decide (r ≤ day * secondsPerDay + 86399)
    | none => false

/-- `metrics._build_time_series`: fills the five time-series fields of `m`
for the days from the earliest creation date up to today, or leaves them
untouched when there is no dated child or the earliest date is not before
today. -/
def buildTimeSeries (now : ℤ) (children : List JiraIssue) (m : EpicMetrics)
    : EpicMetrics :=
  match datedPairs children with
  | [] => m
  | p :: rest =>
    let dated := datedPairs children
    let min_date := dtToDate (foldMin p.2 (rest.map Prod.snd))
    let max_date := dtToDate now
    if max_date ≤ min_date then m
    else
      let n := (max_date - min_date).toNat + 1
      let days := (List.range n).map (fun (i : ℕ) => min_date + (i : ℤ))
      { m with
        dates := days
        total_sp_over_time :=
          days.map (fun d => ((createdByDay dated d).map (fun q => spOrZero q.1)).sum)
        completed_sp_over_time :=
          days.map (fun d =>
            (((createdByDay dated d).filter (fun q => doneOnDay d q.1)).map
              (fun q => spOrZero q.1)).sum)
        cumulative_issues := days.map (fun d => (createdByDay dated d).length)
        cumulative_unestimated :=
          days.map (fun d =>
            (createdByDay dated d).countP (fun q => !optTruthy q.1.story_points)) }

/-- `m.completed_issues`: children whose `status_category` is `"Done"`. -/
def doneCount (children : List JiraIssue) : ℕ :=
  children.countP (fun c => decide (c.status_category = "Done"))

/-- `m.unestimated_issues`: children with falsy `story_points`. -/
def unestimatedCount (children : List JiraIssue) : ℕ :=
  children.countP (fun c => !optTruthy c.story_points)

/-- `m.total_sp`: `sum(c.story_points for c in children if c.story_points)`. -/
def totalSp (children : List JiraIssue) : ℚ :=
  ((children.filter (fun c => optTruthy c.story_points)).map spOrZero).sum

/-- `m.completed_sp`: the same sum restricted to `"Done"` children. -/
def completedSp (children : List JiraIssue) : ℚ :=
  ((children.filter (fun c =>
    optTruthy c.story_points && decide (c.status_category = "Done"))).map spOrZero).sum

/-- `m.blocked_issues`: `"blocked" in c.status.lower()` and not `"Done"`. -/
def blockedCount (children : List JiraIssue) : ℕ :=
  children.countP (fun c =>
    decide (List.IsInfix ("blocked".toList) (c.status.toLower.toList)) &&
      decide (c.status_category ≠ "Done"))

/-- The scalar fields `calculate_metrics` assigns before `_build_time_series`. -/
def scalarMetrics (now : ℤ) (children : List JiraIssue) : EpicMetrics :=
  { total_issues := children.length
    completed_issues := doneCount children
    open_issues := children.length - doneCount children
    unestimated_issues := unestimatedCount children
    total_sp := totalSp children
    completed_sp := completedSp children
    remaining_sp := totalSp children - completedSp children
    progress := progressCalc (completedSp children) (totalSp children)
      (doneCount children) children.length
    avg_cycle_time_days := avgCycleTime children
    velocity_sp_per_week := velocityCalc now children
    scope_change_pct := scopeChange children
    blocked_issues := blockedCount children
    forecast_date := forecastCalc (dtToDate now)
      (totalSp children - completedSp children) (velocityCalc now children) }

/-- `metrics.calculate_metrics`; `now` stands for `datetime.now()` /
`date.today()`. -/
def calculate_metrics (now : ℤ) (epic : EpicData) : EpicMetrics :=
  if epic.children.isEmpty then {}
  else buildTimeSeries now epic.children (scalarMetrics now epic.children)

/-! ## Chart generator (`core/chart_generator.py`)

`generate_epic_chart` returns `None` when `metrics.dates` is empty and
otherwise the bytes matplotlib's `fig.savefig(buf, format="png")` wrote to
the buffer.  The matplotlib encoder is external to the repository, so it is
a parameter `render`; its documented output format is captured by
`PngContract`. -/

/-- The 8-byte PNG file signature. -/
def pngMagic : List ℕ := [137, 80, 78, 71, 13, 10, 26, 10]

/-- Contract of matplotlib's `savefig(..., format="png")`: the bytes
written to the buffer begin with the PNG signature. -/
def PngContract (render : EpicMetrics → List ℕ) : Prop :=
  ∀ m : EpicMetrics, (render m).take 8 = pngMagic

/-- `chart_generator.generate_epic_chart`, with the matplotlib rendering
pipeline abstracted as `render`. -/
def generate_epic_chart (render : EpicMetrics → List ℕ) (metrics : EpicMetrics)
    : Option (List ℕ) :=
  if metrics.dates.isEmpty then none
  else some (render metrics)

/-! ## Sidebar cells (`pdf_generator._build_summary_box`)

Only the N/A-vs-value decision of each optional-metric row is embedded;
string formatting is abstracted to the carried value. -/

/-- A rendered sidebar cell: either the "N/A" fallback or a value. -/
inductive Cell (α : Type) where
  | na : Cell α
  | val : α → Cell α
deriving DecidableEq

/-- The "Avg Cycle Time" cell:
`f"{v:.1f} days" if metrics.avg_cycle_time_days else "N/A"` (truthiness). -/
def avgCycleCell (m : EpicMetrics) : Cell ℚ :=
  if optTruthy m.avg_cycle_time_days then Cell.val ((m.avg_cycle_time_days).getD 0)
  else Cell.na

/-- The "Velocity (4wk)" cell:
`f"{v:.1f} SP/wk" if metrics.velocity_sp_per_week else "N/A"` (truthiness). -/
def velocityCell (m : EpicMetrics) : Cell ℚ :=
  if optTruthy m.velocity_sp_per_week then Cell.val ((m.velocity_sp_per_week).getD 0)
  else Cell.na

/-- The "Scope Change" cell:
`f"{v:.0f}%" if metrics.scope_change_pct is not None else "N/A"`. -/
def scopeChangeCell (m : EpicMetrics) : Cell ℚ :=
  match m.scope_change_pct with
  | some v => Cell.val v
  | none => Cell.na

/-- The "Forecast" cell:
`_fmt_date(d, ...) if metrics.forecast_date else "N/A"`; a `date` object is
always truthy, so the test is a `None` test. -/
def forecastCell (m : EpicMetrics) : Cell ℤ :=
  match m.forecast_date with
  | some d => Cell.val d
  | none => Cell.na

/-! ## Claim-side formulations

These definitions follow the wording of the specification, to be compared
with the embeddings above. -/

/-- The spec's velocity numerator: "sum of story points of children that
are Done and resolved within the last 4 weeks". -/
def recentDoneSp (now : ℤ) (children : List JiraIssue) : ℚ :=
  (children.map (fun c =>
    if c.status_category = "Done" then
      match c.resolved with
      | some r => if now - 4 * secondsPerWeek ≤ r then spOrZero c else 0
      | none => 0
    else 0)).sum

/-- "created more than 7 days after `t0`". -/
def createdAfter (t0 : ℤ) (c : JiraIssue) : Bool :=
  match c.created with
  | some dt => decide (t0 + sevenDays < dt)
  | none => false

/-- The spec's scope-change formulation: `None` when fewer than two
children have `created` set; otherwise, with `t0` the earliest creation
time among dated children, `(children created more than 7 days after t0) /
total children * 100`. -/
def scopeChangeSpec (children : List JiraIssue) : Option ℚ :=
  let created := children.filterMap (fun c => c.created)
  match created with
  | [] => none
  | t :: rest =>
    if created.length < 2 then none
    else
      let lateCount := children.countP (createdAfter (foldMin t rest))
      some ((lateCount : ℚ) / (children.length : ℚ) * 100)

/-- The claim's "today + ceil(remaining_sp / velocity) weeks" reading of
the forecast. -/
def forecastCeilWeeks (today : ℤ) (remaining_sp : ℚ) (velocity : Option ℚ)
    : Option ℤ :=
  match velocity with
  | none => none
  | some v =>
    if v ≤ 0 ∨ remaining_sp ≤ 0 then none
    else some (today + 7 * ⌈remaining_sp / v⌉)

/-! ## Helper lemmas -/

/-- `_build_time_series` only assigns the five list fields: every scalar
field of the metrics record is untouched. -/
lemma buildTimeSeries_shape (now : ℤ) (children : List JiraIssue)
    (m : EpicMetrics) :
    ∃ ds ts cs ci cu, buildTimeSeries now children m =
      { m with
        dates := ds
        total_sp_over_time := ts
        completed_sp_over_time := cs
        cumulative_issues := ci
        cumulative_unestimated := cu } := by
  unfold buildTimeSeries
  cases datedPairs children with
  | nil =>
    exact ⟨m.dates, m.total_sp_over_time, m.completed_sp_over_time,
      m.cumulative_issues, m.cumulative_unestimated, rfl⟩
  | cons p rest =>
    dsimp only
    split
    · exact ⟨m.dates, m.total_sp_over_time, m.completed_sp_over_time,
        m.cumulative_issues, m.cumulative_unestimated, rfl⟩
    · exact ⟨_, _, _, _, _, rfl⟩

lemma calculate_metrics_of_ne (now : ℤ) (epic : EpicData)
    (h : epic.children ≠ []) :
    calculate_metrics now epic =
      buildTimeSeries now epic.children (scalarMetrics now epic.children) := by
  rw [calculate_metrics, if_neg]
  simp [List.isEmpty_iff, h]

/-- The scalar fields of `calculate_metrics` on a nonempty children list. -/
lemma calculate_metrics_scalars (now : ℤ) (epic : EpicData)
    (h : epic.children ≠ []) :
    (calculate_metrics now epic).total_issues = epic.children.length ∧
    (calculate_metrics now epic).completed_issues = doneCount epic.children ∧
    (calculate_metrics now epic).total_sp = totalSp epic.children ∧
    (calculate_metrics now epic).completed_sp = completedSp epic.children ∧
    (calculate_metrics now epic).remaining_sp
      = totalSp epic.children - completedSp epic.children ∧
    (calculate_metrics now epic).progress
      = progressCalc (completedSp epic.children) (totalSp epic.children)
          (doneCount epic.children) epic.children.length ∧
    (calculate_metrics now epic).avg_cycle_time_days = avgCycleTime epic.children ∧
    (calculate_metrics now epic).velocity_sp_per_week
      = velocityCalc now epic.children ∧
    (calculate_metrics now epic).scope_change_pct = scopeChange epic.children ∧
    (calculate_metrics now epic).forecast_date
      = forecastCalc (dtToDate now)
          (totalSp epic.children - completedSp epic.children)
          (velocityCalc now epic.children) := by
  rw [calculate_metrics_of_ne now epic h]
  obtain ⟨ds, ts, cs, ci, cu, hshape⟩ :=
    buildTimeSeries_shape now epic.children (scalarMetrics now epic.children)
  rw [hshape]
  exact ⟨rfl, rfl, rfl, rfl, rfl, rfl, rfl, rfl, rfl, rfl⟩

/-- `clamp(x, 0, 100)` as used by the spec. -/
def clampPct (x : ℚ) : ℚ := max 0 (min 100 x)

lemma progressCalc_eq_sp0 (csp : ℚ) (dc ti : ℕ) (hti : ti ≠ 0) :
    progressCalc csp 0 dc ti = clampPct ((dc : ℚ) / (ti : ℚ) * 100) := by
  simp [progressCalc, hti, clampPct]

lemma progressCalc_eq_pos (csp tsp : ℚ) (dc ti : ℕ) (hti : ti ≠ 0)
    (htsp : tsp ≠ 0) :
    progressCalc csp tsp dc ti
      = clampPct (csp / tsp * ((dc : ℚ) / (ti : ℚ)) * 100) := by
  simp [progressCalc, hti, htsp, clampPct]

lemma progressCalc_bounds (csp tsp : ℚ) (dc ti : ℕ) :
    0 ≤ progressCalc csp tsp dc ti ∧ progressCalc csp tsp dc ti ≤ 100 := by
  unfold progressCalc
  split
  · norm_num
  · split <;>
      exact ⟨le_max_left _ _, max_le (by norm_num) (min_le_left _ _)⟩

/-- Per-children list length of the time-series arrays built by
`_build_time_series`: when the input record's list fields are empty, all
five output lists share one length. -/
lemma buildTimeSeries_lengths (now : ℤ) (children : List JiraIssue)
    (m : EpicMetrics) (h0 : m.dates = [] ∧ m.total_sp_over_time = [] ∧
      m.completed_sp_over_time = [] ∧ m.cumulative_issues = [] ∧
      m.cumulative_unestimated = []) :
    (buildTimeSeries now children m).total_sp_over_time.length
        = (buildTimeSeries now children m).dates.length ∧
      (buildTimeSeries now children m).completed_sp_over_time.length
        = (buildTimeSeries now children m).dates.length ∧
      (buildTimeSeries now children m).cumulative_issues.length
        = (buildTimeSeries now children m).dates.length ∧
      (buildTimeSeries now children m).cumulative_unestimated.length
        = (buildTimeSeries now children m).dates.length := by
  obtain ⟨h1, h2, h3, h4, h5⟩ := h0
  unfold buildTimeSeries
  cases datedPairs children with
  | nil => simp [h1, h2, h3, h4, h5]
  | cons p rest =>
    dsimp only
    split
    · simp [h1, h2, h3, h4, h5]
    · simp

lemma countP_created_eq (t0 : ℤ) (cs : List JiraIssue) :
    (cs.filterMap (fun c => c.created)).countP
        (fun dt => decide (t0 + sevenDays < dt))
      = cs.countP (createdAfter t0) := by
  induction cs with
  | nil => rfl
  | cons a l ih =>
    cases hfa : a.created with
    | none => simp [List.filterMap_cons, hfa, List.countP_cons, ih, createdAfter]
    | some b => simp [List.filterMap_cons, hfa, List.countP_cons, ih, createdAfter]

lemma countP_lt_length_of_mem {α : Type} (l : List α) (p : α → Bool) (x : α)
    (hx : x ∈ l) (hpx : p x = false) : l.countP p < l.length := by
  induction l with
  | nil => cases hx
  | cons a l ih =>
    rw [List.countP_cons, List.length_cons]
    rcases List.mem_cons.mp hx with h | h
    · subst h
      rw [hpx]
      simpa using Nat.lt_succ_of_le (l.countP_le_length p)
    · cases hpa : p a
      · simpa using Nat.lt_succ_of_le (Nat.le_of_lt (ih h))
      · simpa using ih h

lemma foldMin_mem (a : ℤ) (l : List ℤ) : foldMin a l = a ∨ foldMin a l ∈ l := by
  induction l generalizing a with
  | nil => exact Or.inl rfl
  | cons b l ih =>
    rcases ih (min a b) with h | h
    · rcases min_choice a b with hm | hm
      · exact Or.inl (by rw [foldMin, List.foldl_cons] at *; rw [h, hm])
      · refine Or.inr (List.mem_cons.mpr (Or.inl ?_))
        rw [foldMin, List.foldl_cons] at *
        rw [h, hm]
    · exact Or.inr (List.mem_cons.mpr (Or.inr h))

/-- The embedded `_scope_change` agrees with the spec's formulation. -/
lemma scopeChange_eq_spec (cs : List JiraIssue) :
    scopeChange cs = scopeChangeSpec cs := by
  unfold scopeChange scopeChangeSpec
  by_cases h2 : cs.length < 2
  · rw [if_pos h2]
    cases hc : cs.filterMap (fun c => c.created) with
    | nil => rfl
    | cons t rest =>
      have hle := List.length_filterMap_le (fun c => c.created) cs
      rw [hc] at hle
      simp only [if_pos (lt_of_le_of_lt hle h2)]
  · rw [if_neg h2]
    cases hc : cs.filterMap (fun c => c.created) with
    | nil => rfl
    | cons t rest =>
      by_cases hl : (t :: rest).length < 2
      · simp only [if_pos hl]
      · simp only [if_neg hl]
        have hcount := countP_created_eq (foldMin t rest) cs
        rw [hc] at hcount
        rw [hcount]

/-- `_scope_change` never returns a value at or above 100 (nor below 0). -/
lemma scopeChange_some_bounds (cs : List JiraIssue) (v : ℚ)
    (h : scopeChange cs = some v) : 0 ≤ v ∧ v < 100 := by
  unfold scopeChange at h
  by_cases h2 : cs.length < 2
  · rw [if_pos h2] at h
    exact absurd h (by simp)
  · rw [if_neg h2] at h
    cases hc : cs.filterMap (fun c => c.created) with
    | nil =>
      rw [hc] at h
      exact absurd h (by simp)
    | cons t rest =>
      rw [hc] at h
      dsimp only at h
      by_cases hl : (t :: rest).length < 2
      · rw [if_pos hl] at h
        exact absurd h (by simp)
      · rw [if_neg hl] at h
        have hv : ((t :: rest).countP
              (fun dt => decide (foldMin t rest + sevenDays < dt)) : ℚ)
              / (cs.length : ℚ) * 100 = v := by
          simpa using h
        have hnpos : 0 < cs.length := by omega
        have hmem : foldMin t rest ∈ t :: rest := by
          rcases foldMin_mem t rest with hm | hm
          · rw [hm]; exact List.mem_cons_self _ _
          · exact List.mem_cons.mpr (Or.inr hm)
        have hnotp : (fun dt => decide (foldMin t rest + sevenDays < dt))
            (foldMin t rest) = false := by
          simp [sevenDays]
        have hlt : (t :: rest).countP
            (fun dt => decide (foldMin t rest + sevenDays < dt)) < cs.length := by
          have h1 := countP_lt_length_of_mem (t :: rest)
            (fun dt => decide (foldMin t rest + sevenDays < dt))
            (foldMin t rest) hmem hnotp
          have hle := List.length_filterMap_le (fun c => c.created) cs
          rw [hc] at hle
          omega
        constructor
        · rw [← hv]
          positivity
        · rw [← hv]
          have hdiv : ((t :: rest).countP
                (fun dt => decide (foldMin t rest + sevenDays < dt)) : ℚ)
                / (cs.length : ℚ) < 1 := by
            rw [div_lt_one (by exact_mod_cast hnpos)]
            exact_mod_cast hlt
          calc ((t :: rest).countP
                (fun dt => decide (foldMin t rest + sevenDays < dt)) : ℚ)
                / (cs.length : ℚ) * 100 < 1 * 100 := by
                  exact mul_lt_mul_of_pos_right hdiv (by norm_num)
            _ = 100 := one_mul _

/-! ## Concrete fixtures used by witnesses and counterexamples -/

/-- A child issue with the given status category, status, story points and
timestamps; the remaining fields are irrelevant to the metrics. -/
def mkIssue (sc status : String) (sp : Option ℚ) (cr re : Option ℤ) : JiraIssue :=
  { key := "I"
    summary := ""
    status := status
    status_category := sc
    resolution := none
    issue_type := "Task"
    story_points := sp
    created := cr
    resolved := re
    assignee := none }

/-- An Epic with the given children; the remaining fields are irrelevant
to the metrics. -/
def mkEpic (cs : List JiraIssue) : EpicData :=
  { key := "E"
    summary := ""
    status := "Open"
    priority := none
    assignee := none
    reporter := none
    created := none
    updated := none
    children := cs }

/-! ## Claims -/

/-- C1: for every Epic with at least one child, `calculate_metrics` sets
`progress` to `clamp(completed_issues/total_issues*100, 0, 100)` when
`total_sp == 0`, to
`clamp((completed_sp/total_sp)*(completed_issues/total_issues)*100, 0, 100)`
when `total_sp > 0`, and `progress` always lies in `[0, 100]`. -/
theorem progress_formula_and_bounds (now : ℤ) (epic : EpicData)
    (h : epic.children ≠ []) :
    ((calculate_metrics now epic).total_sp = 0 →
      (calculate_metrics now epic).progress =
        clampPct (((calculate_metrics now epic).completed_issues : ℚ) /
          ((calculate_metrics now epic).total_issues : ℚ) * 100)) ∧
    (0 < (calculate_metrics now epic).total_sp →
      (calculate_metrics now epic).progress =
        clampPct ((calculate_metrics now epic).completed_sp /
          (calculate_metrics now epic).total_sp *
          (((calculate_metrics now epic).completed_issues : ℚ) /
            ((calculate_metrics now epic).total_issues : ℚ)) * 100)) ∧
    0 ≤ (calculate_metrics now epic).progress ∧
    (calculate_metrics now epic).progress ≤ 100 := by
  obtain ⟨hti, hci, htsp, hcsp, -, hp, -⟩ := calculate_metrics_scalars now epic h
  have hlen : epic.children.length ≠ 0 := by
    simpa [List.length_eq_zero] using h
  refine ⟨?_, ?_, ?_, ?_⟩
  · intro h0
    rw [htsp] at h0
    rw [hp, hti, hci, h0]
    exact progressCalc_eq_sp0 _ _ _ hlen
  · intro hpos
    rw [htsp] at hpos
    rw [hp, hti, hci, htsp, hcsp]
    exact progressCalc_eq_pos _ _ _ _ hlen (ne_of_gt hpos)
  · rw [hp]; exact (progressCalc_bounds _ _ _ _).1
  · rw [hp]; exact (progressCalc_bounds _ _ _ _).2

/-- Witness for C1 at a one-child Epic. -/
theorem progress_formula_and_bounds_witness :
    0 ≤ (calculate_metrics 0
        (mkEpic [mkIssue "To Do" "Open" none none none])).progress ∧
    (calculate_metrics 0
        (mkEpic [mkIssue "To Do" "Open" none none none])).progress ≤ 100 :=
  ⟨(progress_formula_and_bounds 0 _ (List.cons_ne_nil _ _)).2.2.1,
   (progress_formula_and_bounds 0 _ (List.cons_ne_nil _ _)).2.2.2⟩

/-- C2: all five time-series arrays returned by `calculate_metrics` have
identical length equal to `len(dates)`, and if `dates` is empty the other
four are empty too. -/
theorem time_series_lengths (now : ℤ) (epic : EpicData) :
    ((calculate_metrics now epic).total_sp_over_time.length
        = (calculate_metrics now epic).dates.length ∧
      (calculate_metrics now epic).completed_sp_over_time.length
        = (calculate_metrics now epic).dates.length ∧
      (calculate_metrics now epic).cumulative_issues.length
        = (calculate_metrics now epic).dates.length ∧
      (calculate_metrics now epic).cumulative_unestimated.length
        = (calculate_metrics now epic).dates.length) ∧
    ((calculate_metrics now epic).dates = [] →
      (calculate_metrics now epic).total_sp_over_time = [] ∧
      (calculate_metrics now epic).completed_sp_over_time = [] ∧
      (calculate_metrics now epic).cumulative_issues = [] ∧
      (calculate_metrics now epic).cumulative_unestimated = []) := by
  have hlen : (calculate_metrics now epic).total_sp_over_time.length
        = (calculate_metrics now epic).dates.length ∧
      (calculate_metrics now epic).completed_sp_over_time.length
        = (calculate_metrics now epic).dates.length ∧
      (calculate_metrics now epic).cumulative_issues.length
        = (calculate_metrics now epic).dates.length ∧
      (calculate_metrics now epic).cumulative_unestimated.length
        = (calculate_metrics now epic).dates.length := by
    by_cases h : epic.children = []
    · rw [calculate_metrics, if_pos (by simp [h])]
      exact ⟨rfl, rfl, rfl, rfl⟩
    · rw [calculate_metrics_of_ne now epic h]
      exact buildTimeSeries_lengths now epic.children _ ⟨rfl, rfl, rfl, rfl, rfl⟩
  refine ⟨hlen, fun hd => ?_⟩
  obtain ⟨h1, h2, h3, h4⟩ := hlen
  rw [hd, List.length_nil] at h1 h2 h3 h4
  exact ⟨List.length_eq_zero.mp h1, List.length_eq_zero.mp h2,
    List.length_eq_zero.mp h3, List.length_eq_zero.mp h4⟩

/-- Witness for C2's emptiness clause at a childless Epic. -/
theorem time_series_lengths_witness :
    (calculate_metrics 0 (mkEpic [])).total_sp_over_time = [] ∧
    (calculate_metrics 0 (mkEpic [])).cumulative_issues = [] := by
  have h := (time_series_lengths 0 (mkEpic [])).2 rfl
  exact ⟨h.1, h.2.2.1⟩

/-- C9: an Epic with no children gets the all-zero / all-`None` default
metrics record. -/
theorem empty_children_default_metrics (now : ℤ) (epic : EpicData)
    (h : epic.children = []) :
    calculate_metrics now epic =
      { total_issues := 0
        completed_issues := 0
        open_issues := 0
        unestimated_issues := 0
        total_sp := 0
        completed_sp := 0
        remaining_sp := 0
        progress := 0
        avg_cycle_time_days := none
        velocity_sp_per_week := none
        scope_change_pct := none
        blocked_issues := 0
        forecast_date := none
        dates := []
        total_sp_over_time := []
        completed_sp_over_time := []
        cumulative_issues := []
        cumulative_unestimated := [] } := by
  rw [calculate_metrics, if_pos (by simp [h])]

/-- Witness for C9 at a concrete childless Epic. -/
theorem empty_children_default_metrics_witness :
    calculate_metrics 5 (mkEpic []) =
      { total_issues := 0
        completed_issues := 0
        open_issues := 0
        unestimated_issues := 0
        total_sp := 0
        completed_sp := 0
        remaining_sp := 0
        progress := 0
        avg_cycle_time_days := none
        velocity_sp_per_week := none
        scope_change_pct := none
        blocked_issues := 0
        forecast_date := none
        dates := []
        total_sp_over_time := []
        completed_sp_over_time := []
        cumulative_issues := []
        cumulative_unestimated := [] } :=
  empty_children_default_metrics 5 _ rfl

/-- C6: `scope_change_pct` is `None` when fewer than 2 children have a
`created` timestamp; otherwise, with `t0` the earliest creation time among
dated children, it equals
`(children created more than 7 days after t0) / total_issues * 100`. -/
theorem scope_change_formula (now : ℤ) (epic : EpicData) :
    (calculate_metrics now epic).scope_change_pct
      = scopeChangeSpec epic.children := by
  by_cases h : epic.children = []
  · rw [calculate_metrics, if_pos (by simp [h]), h]
    rfl
  · rw [(calculate_metrics_scalars now epic h).2.2.2.2.2.2.2.2.1]
    exact scopeChange_eq_spec epic.children

/-- C10 (implicit): a non-`None` `scope_change_pct` always lies in
`[0, 100)`: the earliest dated child is never counted as added later. -/
theorem scope_change_pct_range (now : ℤ) (epic : EpicData) (v : ℚ)
    (h : (calculate_metrics now epic).scope_change_pct = some v) :
    0 ≤ v ∧ v < 100 := by
  by_cases hc : epic.children = []
  · rw [calculate_metrics, if_pos (by simp [hc])] at h
    exact Option.noConfusion h
  · rw [(calculate_metrics_scalars now epic hc).2.2.2.2.2.2.2.2.1] at h
    exact scopeChange_some_bounds _ _ h

/-- Witness for C10: an Epic whose second child was created 30 days after
the first has scope change 50%, inside `[0, 100)`. -/
theorem scope_change_pct_range_witness : (0 : ℚ) ≤ 50 ∧ (50 : ℚ) < 100 :=
  scope_change_pct_range 3456000
    (mkEpic [mkIssue "To Do" "Open" (some 1) (some 0) none,
      mkIssue "To Do" "Open" (some 1) (some 2592000) none]) 50
    (by
      rw [(calculate_metrics_scalars 3456000 _
        (List.cons_ne_nil _ _)).2.2.2.2.2.2.2.2.1]
      simp [scopeChange, mkEpic, mkIssue, foldMin, sevenDays]
      norm_num)

lemma velocity_sum_eq (now : ℤ) (cs : List JiraIssue) :
    ((cs.filter (velocityCounts (now - 4 * secondsPerWeek))).map spOrZero).sum
      = recentDoneSp now cs := by
  induction cs with
  | nil => rfl
  | cons c l ih =>
    rw [recentDoneSp, List.map_cons, List.sum_cons]
    rw [show (l.map _).sum = recentDoneSp now l from rfl]
    by_cases hp : velocityCounts (now - 4 * secondsPerWeek) c
    · rw [List.filter_cons_of_pos hp, List.map_cons, List.sum_cons, ih]
      unfold velocityCounts at hp
      simp only [Bool.and_eq_true, decide_eq_true_eq] at hp
      obtain ⟨⟨-, hdone⟩, hres⟩ := hp
      cases hr : c.resolved with
      | none => rw [hr] at hres; cases hres
      | some r =>
        rw [hr] at hres
        simp only [decide_eq_true_eq] at hres
        simp [hdone, hres]
    · rw [List.filter_cons_of_neg hp, ih]
      unfold velocityCounts at hp
      simp only [Bool.and_eq_true, decide_eq_true_eq, not_and] at hp
      by_cases hdone : c.status_category = "Done"
      · cases hr : c.resolved with
        | none => simp [hdone]
        | some r =>
          by_cases hcut : now - 4 * secondsPerWeek ≤ r
          · by_cases ht : optTruthy c.story_points
            · exfalso
              have := hp ⟨ht, hdone⟩
              rw [hr] at this
              simp [hcut] at this
            · cases hsp : c.story_points with
              | none => simp [hdone, hcut, spOrZero, hsp]
              | some s =>
                have hs0 : s = 0 := by
                  by_contra hs
                  exact ht (by simp [optTruthy, hsp, hs])
                simp [hdone, hcut, spOrZero, hsp, hs0]
          · simp [hdone, hcut]
      · simp [hdone]

lemma velocityCalc_eq (now : ℤ) (cs : List JiraIssue) :
    velocityCalc now cs
      = if recentDoneSp now cs = 0 then none
        else some (recentDoneSp now cs / 4) := by
  have h := velocity_sum_eq now cs
  unfold velocityCalc
  dsimp only
  rw [h]

/-- C5: velocity is the story-point sum of children resolved as "Done"
within the last 4 weeks divided by 4, and `None` when that sum is zero —
in particular `None` when every resolved-as-Done child is older than the
window. -/
theorem velocity_formula (now : ℤ) (epic : EpicData) :
    ((calculate_metrics now epic).velocity_sp_per_week
        = if recentDoneSp now epic.children = 0 then none
          else some (recentDoneSp now epic.children / 4)) ∧
    ((∀ c ∈ epic.children, c.status_category = "Done" →
        ∀ r, c.resolved = some r → r < now - 4 * secondsPerWeek) →
      (calculate_metrics now epic).velocity_sp_per_week = none) := by
  have hv : (calculate_metrics now epic).velocity_sp_per_week
      = velocityCalc now epic.children := by
    by_cases h : epic.children = []
    · rw [calculate_metrics, if_pos (by simp [h]), h]
      simp [velocityCalc]
    · exact (calculate_metrics_scalars now epic h).2.2.2.2.2.2.2.1
  refine ⟨by rw [hv, velocityCalc_eq], fun hold => ?_⟩
  rw [hv, velocityCalc_eq]
  have hz : recentDoneSp now epic.children = 0 := by
    unfold recentDoneSp
    apply List.sum_eq_zero
    intro x hx
    obtain ⟨c, hcmem, hcx⟩ := List.mem_map.mp hx
    rw [← hcx]
    by_cases hdone : c.status_category = "Done"
    · cases hr : c.resolved with
      | none => simp [hdone]
      | some r =>
        simp [hdone, not_le.mpr (hold c hcmem hdone r hr)]
    · simp [hdone]
  rw [if_pos hz]

/-- Witness for C5: a 5-SP child resolved as Done long before the window
yields `None` velocity. -/
theorem velocity_formula_witness :
    EpicMetrics.velocity_sp_per_week
      (calculate_metrics 10000000
        (mkEpic [mkIssue "Done" "Done" (some 5) none (some 0)])) = none :=
  (velocity_formula 10000000
      (mkEpic [mkIssue "Done" "Done" (some 5) none (some 0)])).2
    (by
      intro c hc hd r hr
      simp only [mkEpic] at hc
      rw [List.mem_singleton] at hc
      subst hc
      simp only [mkIssue, Option.some.injEq] at hr
      rw [← hr]
      norm_num [secondsPerWeek])

lemma forecastCalc_rule (t : ℤ) (r : ℚ) (v? : Option ℚ) :
    (forecastCalc t r v? = none ↔
      ¬ ∃ v, v? = some v ∧ 0 < v ∧ 0 < r) ∧
    (∀ v, v? = some v → 0 < v → 0 < r →
      forecastCalc t r v? = some (t + ⌊7 * (r / v)⌋)) := by
  cases v? with
  | none => simp [forecastCalc]
  | some v =>
    constructor
    · by_cases h : v = 0 ∨ v ≤ 0 ∨ r ≤ 0
      · rw [forecastCalc, if_pos h]
        simp only [true_iff, eq_self_iff_true]
        rintro ⟨w, hw, hv, hr⟩
        rw [Option.some.injEq] at hw
        subst hw
        rcases h with h | h | h <;> linarith
      · rw [forecastCalc, if_neg h]
        push_neg at h
        simp only [Option.some_ne_none, false_iff, not_not]
        exact ⟨v, rfl, h.2.1, h.2.2⟩
    · intro w hw hv hr
      rw [Option.some.injEq] at hw
      subst hw
      rw [forecastCalc, if_neg]
      push_neg
      exact ⟨ne_of_gt hv, hv, hr⟩

/-- Forecast fixture: 8 SP resolved as Done 1000 s before `now` (velocity
2 SP/week) plus one open 1-SP child (remaining 1 SP). -/
def fcEpic : EpicData :=
  mkEpic [mkIssue "Done" "Done" (some 8) none (some 8639000),
    mkIssue "To Do" "Open" (some 1) none none]

lemma fcEpic_remaining :
    (calculate_metrics 8640000 fcEpic).remaining_sp = 1 := by
  rw [(calculate_metrics_scalars 8640000 fcEpic
    (List.cons_ne_nil _ _)).2.2.2.2.1]
  simp [totalSp, completedSp, fcEpic, mkEpic, mkIssue, optTruthy, spOrZero]

lemma fcEpic_velocity :
    (calculate_metrics 8640000 fcEpic).velocity_sp_per_week = some 2 := by
  rw [(calculate_metrics_scalars 8640000 fcEpic
    (List.cons_ne_nil _ _)).2.2.2.2.2.2.2.1]
  simp [velocityCalc, velocityCounts, fcEpic, mkEpic, mkIssue, optTruthy,
    spOrZero, secondsPerWeek]
  norm_num

lemma fcEpic_forecast :
    (calculate_metrics 8640000 fcEpic).forecast_date = some 103 := by
  rw [(calculate_metrics_scalars 8640000 fcEpic
    (List.cons_ne_nil _ _)).2.2.2.2.2.2.2.2.2]
  have h1 : totalSp fcEpic.children - completedSp fcEpic.children = 1 := by
    simp [totalSp, completedSp, fcEpic, mkEpic, mkIssue, optTruthy, spOrZero]
  have h2 : velocityCalc 8640000 fcEpic.children = some 2 := by
    simp [velocityCalc, velocityCounts, fcEpic, mkEpic, mkIssue, optTruthy,
      spOrZero, secondsPerWeek]
    norm_num
  rw [h1, h2]
  rw [forecastCalc, if_neg (by norm_num)]
  have hf : ⌊(7 : ℚ) * (1 / 2)⌋ = 3 := by norm_num [Int.floor_eq_iff]
  rw [hf]
  decide

/-- Counterexample to C4 as stated: with remaining 1 SP and velocity 2
SP/week, the code forecasts `today + 3` days (`timedelta(weeks=0.5)`
contributes 3 whole days), while "today + ceil(remaining/velocity) weeks"
would be `today + 7` days. -/
theorem forecast_ceil_counterexample :
    (calculate_metrics 8640000 fcEpic).remaining_sp = 1 ∧
    (calculate_metrics 8640000 fcEpic).velocity_sp_per_week = some 2 ∧
    (calculate_metrics 8640000 fcEpic).forecast_date = some 103 ∧
    forecastCeilWeeks (dtToDate 8640000) 1 (some 2) = some 107 ∧
    some (103 : ℤ) ≠ some (107 : ℤ) := by
  refine ⟨fcEpic_remaining, fcEpic_velocity, fcEpic_forecast, ?_, by simp⟩
  rw [forecastCeilWeeks, if_neg (by norm_num)]
  have hc : ⌈(1 : ℚ) / 2⌉ = 1 := by norm_num [Int.ceil_eq_iff]
  rw [hc]
  decide

/-- C4 (amended): `forecast_date` is `None` unless velocity is positive
and `remaining_sp > 0`; otherwise it is
`today + timedelta(weeks=remaining_sp/velocity)`, whose whole-day part is
`⌊7 * remaining_sp / velocity⌋` days. -/
theorem forecast_date_rule (now : ℤ) (epic : EpicData) :
    ((calculate_metrics now epic).forecast_date = none ↔
      ¬ ∃ v, (calculate_metrics now epic).velocity_sp_per_week = some v ∧
        0 < v ∧ 0 < (calculate_metrics now epic).remaining_sp) ∧
    (∀ v, (calculate_metrics now epic).velocity_sp_per_week = some v →
      0 < v → 0 < (calculate_metrics now epic).remaining_sp →
      (calculate_metrics now epic).forecast_date
        = some (dtToDate now
            + ⌊7 * ((calculate_metrics now epic).remaining_sp / v)⌋)) := by
  by_cases h : epic.children = []
  · rw [calculate_metrics, if_pos (by simp [h])]
    constructor
    · simp
    · intro v hv
      exact absurd hv (by simp)
  · obtain ⟨-, -, -, -, hrem, -, -, hvel, -, hfc⟩ :=
      calculate_metrics_scalars now epic h
    rw [hrem, hvel, hfc]
    exact forecastCalc_rule (dtToDate now)
      (totalSp epic.children - completedSp epic.children)
      (velocityCalc now epic.children)

/-- Witness for C4's amended positive case at the forecast fixture. -/
theorem forecast_date_rule_witness :
    (calculate_metrics 8640000 fcEpic).forecast_date
      = some (dtToDate 8640000
          + ⌊7 * ((calculate_metrics 8640000 fcEpic).remaining_sp / 2)⌋) :=
  (forecast_date_rule 8640000 fcEpic).2 2 fcEpic_velocity (by norm_num)
    (by rw [fcEpic_remaining]; norm_num)

/-- C7: the chart renderer returns `None` iff `metrics.dates` is empty;
with non-empty dates it returns the encoded PNG bytes (beginning with the
PNG signature, by the encoder's contract). -/
theorem chart_none_iff (render : EpicMetrics → List ℕ) (metrics : EpicMetrics)
    (hrender : PngContract render) :
    (generate_epic_chart render metrics = none ↔ metrics.dates = []) ∧
    (metrics.dates ≠ [] →
      ∃ b, generate_epic_chart render metrics = some b ∧ b.take 8 = pngMagic) := by
  constructor
  · unfold generate_epic_chart
    by_cases h : metrics.dates.isEmpty
    · rw [if_pos h]
      simp [List.isEmpty_iff] at h
      simp [h]
    · rw [if_neg h]
      simp [List.isEmpty_iff] at h
      simp [h]
  · intro h
    refine ⟨render metrics, ?_, hrender metrics⟩
    unfold generate_epic_chart
    rw [if_neg (by simp [List.isEmpty_iff, h])]

/-- Witness for C7 with a renderer that emits the bare PNG signature and a
one-point time series. -/
theorem chart_none_iff_witness :
    ∃ b, generate_epic_chart (fun _ => pngMagic)
        { dates := [0] } = some b ∧ b.take 8 = pngMagic :=
  (chart_none_iff (fun _ => pngMagic) { dates := [0] }
      (fun _ => rfl)).2 (by simp)

lemma velocityCalc_ne_some_zero (now : ℤ) (cs : List JiraIssue) :
    velocityCalc now cs ≠ some 0 := by
  unfold velocityCalc
  dsimp only
  split
  · simp
  · rename_i hsp
    simp only [ne_eq, Option.some.injEq]
    intro h
    exact hsp (by
      field_simp at h
      exact h)

lemma calc_velocity_ne_some_zero (now : ℤ) (epic : EpicData) :
    (calculate_metrics now epic).velocity_sp_per_week ≠ some 0 := by
  by_cases h : epic.children = []
  · rw [calculate_metrics, if_pos (by simp [h])]
    simp
  · rw [(calculate_metrics_scalars now epic h).2.2.2.2.2.2.2.1]
    exact velocityCalc_ne_some_zero now epic.children

/-- A Done child created and resolved at the same instant: zero cycle
time. -/
def naEpic : EpicData :=
  mkEpic [mkIssue "Done" "Done" none (some 1000) (some 1000)]

/-- Counterexample to C8 as stated: a Done child created and resolved at
the same instant gives `avg_cycle_time_days = 0.0`, which is not `None`,
yet the sidebar's truthiness test renders "N/A". -/
theorem na_cell_counterexample :
    EpicMetrics.avg_cycle_time_days (calculate_metrics 8640000 naEpic)
      = some 0 ∧
    avgCycleCell (calculate_metrics 8640000 naEpic) = Cell.na := by
  have havg : (calculate_metrics 8640000 naEpic).avg_cycle_time_days
      = some 0 := by
    rw [(calculate_metrics_scalars 8640000 naEpic
      (List.cons_ne_nil _ _)).2.2.2.2.2.2.1]
    simp [avgCycleTime, naEpic, mkEpic, mkIssue]
  exact ⟨havg, by rw [avgCycleCell, havg]; rfl⟩

/-- C8 (amended): in the sidebar, the scope-change and forecast rows show
"N/A" exactly when the metric is `None`; the avg-cycle-time row shows
"N/A" exactly when the metric is `None` or exactly `0.0` (it tests Python
truthiness); the velocity row's truthiness test coincides with a `None`
test because a non-`None` velocity is never `0`. -/
theorem na_cells_rule (now : ℤ) (epic : EpicData) :
    (avgCycleCell (calculate_metrics now epic) = Cell.na ↔
      ((calculate_metrics now epic).avg_cycle_time_days = none ∨
        (calculate_metrics now epic).avg_cycle_time_days = some 0)) ∧
    (velocityCell (calculate_metrics now epic) = Cell.na ↔
      (calculate_metrics now epic).velocity_sp_per_week = none) ∧
    (scopeChangeCell (calculate_metrics now epic) = Cell.na ↔
      (calculate_metrics now epic).scope_change_pct = none) ∧
    (forecastCell (calculate_metrics now epic) = Cell.na ↔
      (calculate_metrics now epic).forecast_date = none) := by
  refine ⟨?_, ?_, ?_, ?_⟩
  · rw [avgCycleCell]
    cases h : (calculate_metrics now epic).avg_cycle_time_days with
    | none => simp [optTruthy]
    | some q =>
      by_cases hq : q = 0
      · subst hq
        simp [optTruthy]
      · simp [optTruthy, hq]
  · rw [velocityCell]
    cases h : (calculate_metrics now epic).velocity_sp_per_week with
    | none => simp [optTruthy]
    | some q =>
      have hq : q ≠ 0 := by
        intro h0
        exact calc_velocity_ne_some_zero now epic (h0 ▸ h)
      simp [optTruthy, hq]
  · rw [scopeChangeCell]
    cases h : (calculate_metrics now epic).scope_change_pct <;> simp
  · rw [forecastCell]
    cases h : (calculate_metrics now epic).forecast_date <;> simp

lemma datedPairs_fst_mem {cs : List JiraIssue} {p : JiraIssue × ℤ}
    (h : p ∈ datedPairs cs) : p.1 ∈ cs := by
  unfold datedPairs at h
  obtain ⟨c, hcm, hcp⟩ := List.mem_filterMap.mp h
  cases hc : c.created with
  | none => rw [hc] at hcp; cases hcp
  | some t =>
    rw [hc] at hcp
    simp only [Option.map_some', Option.some.injEq] at hcp
    rw [← hcp]
    exact hcm

lemma spOrZero_nonneg_of (cs : List JiraIssue)
    (hsp : ∀ c ∈ cs, ∀ s, c.story_points = some s → 0 ≤ s) :
    ∀ p ∈ datedPairs cs, 0 ≤ spOrZero p.1 := by
  intro p hp
  have hmem : p.1 ∈ cs := datedPairs_fst_mem hp
  cases hc : p.1.story_points with
  | none => simp [spOrZero, hc]
  | some s =>
    have := hsp p.1 hmem s hc
    simp [spOrZero, hc, this]

lemma createdByDay_sublist (dated : List (JiraIssue × ℤ)) (d : ℤ) :
    List.Sublist (createdByDay dated d) (createdByDay dated (d + 1)) :=
  List.monotone_filter_right _ (fun p hp => by
    simp only [decide_eq_true_eq] at hp ⊢
    omega)

lemma doneOnDay_mono {d : ℤ} {c : JiraIssue} (h : doneOnDay d c = true) :
    doneOnDay (d + 1) c = true := by
  unfold doneOnDay at h ⊢
  simp only [Bool.and_eq_true, decide_eq_true_eq] at h ⊢
  obtain ⟨h1, h2⟩ := h
  refine ⟨h1, ?_⟩
  cases hr : c.resolved with
  | none =>
    rw [hr] at h2
    simp at h2
  | some r =>
    rw [hr] at h2
    change decide (r ≤ d * secondsPerDay + 86399) = true at h2
    change decide (r ≤ (d + 1) * secondsPerDay + 86399) = true
    simp only [decide_eq_true_eq] at h2 ⊢
    unfold secondsPerDay at h2 ⊢
    omega

lemma doneFilter_sublist (dated : List (JiraIssue × ℤ)) (d : ℤ) :
    List.Sublist
      ((createdByDay dated d).filter (fun q => doneOnDay d q.1))
      ((createdByDay dated (d + 1)).filter (fun q => doneOnDay (d + 1) q.1)) := by
  rw [createdByDay, createdByDay, List.filter_filter, List.filter_filter]
  refine List.monotone_filter_right _ (fun p hp => ?_)
  simp only [Bool.and_eq_true, decide_eq_true_eq] at hp ⊢
  exact ⟨doneOnDay_mono hp.1, by omega⟩

/-- Adjacent-day chain over the mapped day range. -/
lemma chain'_map_range {α : Type} [Preorder α] (g : ℤ → α) (m : ℤ) (k : ℕ)
    (hg : ∀ d : ℤ, g d ≤ g (d + 1)) :
    List.Chain' (fun a b => a ≤ b)
      (((List.range (k + 1)).map (fun (i : ℕ) => m + (i : ℤ))).map g) := by
  have h1 : (((List.range (k + 1)).map (fun (i : ℕ) => m + (i : ℤ))).map g)
      = (List.range (k + 1)).map (fun (i : ℕ) => g (m + (i : ℤ))) := by
    rw [List.map_map]
    rfl
  rw [h1]
  refine (List.chain'_map (fun i : ℕ => g (m + (i : ℤ)))).mpr ?_
  refine (List.chain'_range_succ
    (fun a b => g (m + (a : ℤ)) ≤ g (m + (b : ℤ))) k).mpr (fun i hi => ?_)
  have hcast : m + ((Nat.succ i : ℕ) : ℤ) = m + (i : ℤ) + 1 := by
    push_cast
    ring
  rw [hcast]
  exact hg (m + (i : ℤ))

/-- Counterexample fixture for C3: a −3-SP child created one day after a
5-SP child. -/
def negEpic : EpicData :=
  mkEpic [mkIssue "To Do" "Open" (some 5) (some 0) none,
    mkIssue "To Do" "Open" (some (-3)) (some 86400) none]

/-- Counterexample to C3 as stated: nothing stops a child's story points
from being negative, and then `total_sp_over_time` decreases (here
`[5, 2, 2]`). -/
theorem cumulative_series_counterexample :
    EpicMetrics.total_sp_over_time (calculate_metrics 172800 negEpic)
      = [5, 2, 2] ∧
    ¬ List.Chain' (fun a b => a ≤ b)
        (EpicMetrics.total_sp_over_time (calculate_metrics 172800 negEpic)) := by
  have hts : EpicMetrics.total_sp_over_time (calculate_metrics 172800 negEpic)
      = [5, 2, 2] := by
    simp [calculate_metrics, negEpic, mkEpic, mkIssue, optTruthy, spOrZero,
      buildTimeSeries, datedPairs, foldMin, dtToDate, createdByDay, doneOnDay,
      secondsPerDay, velocityCalc, velocityCounts, secondsPerWeek,
      scalarMetrics, totalSp, completedSp]
    norm_num [List.range_succ]
  refine ⟨hts, ?_⟩
  rw [hts]
  simp only [List.chain'_cons, List.chain'_singleton, and_true]
  intro hcontra
  norm_num at hcontra

/-- C3 (amended): `cumulative_issues` and `cumulative_unestimated` are
always non-decreasing; `total_sp_over_time` and `completed_sp_over_time`
are non-decreasing provided every child's story points, when set, are
nonnegative. -/
theorem cumulative_series_monotone (now : ℤ) (epic : EpicData) :
    List.Chain' (fun a b => a ≤ b)
        (calculate_metrics now epic).cumulative_issues ∧
    List.Chain' (fun a b => a ≤ b)
        (calculate_metrics now epic).cumulative_unestimated ∧
    ((∀ c ∈ epic.children, ∀ s, c.story_points = some s → 0 ≤ s) →
      List.Chain' (fun a b => a ≤ b)
          (calculate_metrics now epic).total_sp_over_time ∧
      List.Chain' (fun a b => a ≤ b)
          (calculate_metrics now epic).completed_sp_over_time) := by
  by_cases h : epic.children = []
  · rw [calculate_metrics, if_pos (by simp [h])]
    exact ⟨List.chain'_nil, List.chain'_nil,
      fun _ => ⟨List.chain'_nil, List.chain'_nil⟩⟩
  · rw [calculate_metrics_of_ne now epic h]
    unfold buildTimeSeries
    cases hd : datedPairs epic.children with
    | nil =>
      exact ⟨List.chain'_nil, List.chain'_nil,
        fun _ => ⟨List.chain'_nil, List.chain'_nil⟩⟩
    | cons p rest =>
      dsimp only
      split
      · exact ⟨List.chain'_nil, List.chain'_nil,
          fun _ => ⟨List.chain'_nil, List.chain'_nil⟩⟩
      · refine ⟨?_, ?_, fun hsp => ⟨?_, ?_⟩⟩
        · exact chain'_map_range _ _ _ (fun d =>
            (createdByDay_sublist (p :: rest) d).length_le)
        · exact chain'_map_range _ _ _ (fun d =>
            (createdByDay_sublist (p :: rest) d).countP_le _)
        · have hnn : ∀ q ∈ (p :: rest), 0 ≤ spOrZero q.1 := by
            rw [← hd]
            exact spOrZero_nonneg_of epic.children hsp
          refine chain'_map_range _ _ _ (fun d => ?_)
          refine List.Sublist.sum_le_sum
            ((createdByDay_sublist (p :: rest) d).map _) (fun a ha => ?_)
          obtain ⟨q, hq, rfl⟩ := List.mem_map.mp ha
          exact hnn q (List.mem_of_mem_filter hq)
        · have hnn : ∀ q ∈ (p :: rest), 0 ≤ spOrZero q.1 := by
            rw [← hd]
            exact spOrZero_nonneg_of epic.children hsp
          refine chain'_map_range _ _ _ (fun d => ?_)
          refine List.Sublist.sum_le_sum
            ((doneFilter_sublist (p :: rest) d).map _) (fun a ha => ?_)
          obtain ⟨q, hq, rfl⟩ := List.mem_map.mp ha
          exact hnn q (List.mem_of_mem_filter (List.mem_of_mem_filter hq))

/-- Witness fixture for C3: two children with nonnegative story points. -/
def posEpic : EpicData :=
  mkEpic [mkIssue "To Do" "Open" (some 5) (some 0) none,
    mkIssue "To Do" "Open" (some 3) (some 86400) none]

/-- Witness for C3 at a two-child Epic with nonnegative story points. -/
theorem cumulative_series_monotone_witness :
    List.Chain' (fun a b => a ≤ b)
        (EpicMetrics.total_sp_over_time (calculate_metrics 172800 posEpic)) ∧
    List.Chain' (fun a b => a ≤ b)
        (EpicMetrics.cumulative_issues (calculate_metrics 172800 posEpic)) := by
  have h := cumulative_series_monotone 172800 posEpic
  refine ⟨(h.2.2 ?_).1, h.1⟩
  rw [show posEpic = mkEpic [mkIssue "To Do" "Open" (some 5) (some 0) none,
    mkIssue "To Do" "Open" (some 3) (some 86400) none] from rfl]
  intro c hc s hs
  simp only [mkEpic] at hc
  rcases List.mem_cons.mp hc with h1 | h1
  · subst h1
    simp only [mkIssue, Option.some.injEq] at hs
    rw [← hs]
    norm_num
  · rw [List.mem_singleton] at h1
    subst h1
    simp only [mkIssue, Option.some.injEq] at hs
    rw [← hs]
    norm_num

end EpicReport
